import Mathlib

/-!
Formal model of the live transcription pipeline of the advx-25-cdss backend.

The definitions below are a shallow embedding of three source units:

* `kernel/transcribe.py` — `ContinuousTranscriber.convert_webm_to_wav` and
  `ContinuousTranscriber.transcribe_audio`.  Decoded audio is modelled as a
  list of rational amplitudes (canonical mono 16 kHz samples); the Whisper
  invocation (processor, model.generate, batch_decode) is abstracted as a
  function from samples to text, and the embedding additionally records
  whether that function was invoked.
* `routers/diagnosis/transcription_router.py` — the process-wide
  `transcription_state` dictionary and the endpoint handlers
  `transcribe_chunk`, `get_latest_transcription`, `summarize_conversation`,
  `start_transcription_session`, `stop_transcription_session`,
  `get_session_status`.  Wall-clock readings, uuid4 values and the formatted
  client timestamp are passed in as parameters; the external summarizer
  (`generate_summary`, `extract_key_points`) is abstracted as functions.
* `routers/intelligence/transcription_router.py` — the
  `WhisperProviderClient`: its two bounded deque buffers and its
  `send_audio` retry/timeout behaviour, modelled over a trace of per-attempt
  websocket outcomes.
-/

/-- Python str.startswith, over the character sequences of the strings. -/
def pyStartswith (s pre : String) : Bool :=
  pre.toList.isPrefixOf s.toList

/-- Whitespace characters removed by Python str.strip (the ASCII subset:
space, tab, newline, carriage return, vertical tab, form feed). -/
def isPySpace (c : Char) : Bool :=
  c = ' ' || c = '\t' || c = '\n' || c = '\r' || c = '\x0b' || c = '\x0c'

/-- Python str.strip(): drop leading and trailing whitespace. -/
def pyStrip (s : String) : String :=
  String.mk (((s.toList.dropWhile fun c => isPySpace c).reverse.dropWhile
    fun c => isPySpace c).reverse)

/-- Outcome of librosa.load on a file: the decoded sample array, or a raised
decode error (which `transcribe_audio` catches in its outer try/except). -/
inductive LoadResult
  | ok (samples : List ℚ)
  | failed
deriving DecidableEq, Repr

/-- An input file as seen by ContinuousTranscriber.transcribe_audio: whether
its name ends in .webm or .opus, the outcome of a pydub decode of it
(AudioSegment.from_file followed by downmix and resample — none means the
decode raised), and the outcome of running librosa.load directly on the
original file. -/
structure AudioFile where
  isWebmOrOpus : Bool
  pydubDecode : Option (List ℚ)
  librosaLoadOriginal : LoadResult
deriving DecidableEq, Repr

/-- Result of ContinuousTranscriber.convert_webm_to_wav: the exported WAV
file, or — when decoding raised — the original input file returned unchanged
(the source comment reads "Try to transcribe original file if conversion
fails"). -/
inductive ConvertedFile
  | wavFile (samples : List ℚ)
  | originalFile
deriving DecidableEq, Repr

/-- ContinuousTranscriber.convert_webm_to_wav. -/
def convert_webm_to_wav (f : AudioFile) : ConvertedFile :=
  match f.pydubDecode with
  | some s => ConvertedFile.wavFile s
  | none => ConvertedFile.originalFile

/-- self.sample_rate of ContinuousTranscriber (16000 Hz). -/
def sample_rate : Nat := 16000

/-- The silence threshold 0.01 used by transcribe_audio. -/
def silence_threshold : ℚ := 1 / 100

/-- np.max(np.abs(samples)): the peak absolute amplitude of the array. -/
def peakAmplitude (s : List ℚ) : ℚ :=
  s.foldr (fun x m => max |x| m) 0

/-- The samples librosa.load hands to transcribe_audio: for a .webm/.opus
file the conversion runs first and librosa reads its output (the converted
WAV on success, the original file again after the conversion fallback);
otherwise librosa reads the file directly. -/
def loadedSamples (f : AudioFile) : LoadResult :=
  if f.isWebmOrOpus then
    match convert_webm_to_wav f with
    | ConvertedFile.wavFile s => LoadResult.ok s
    | ConvertedFile.originalFile => f.librosaLoadOriginal
  else f.librosaLoadOriginal

/-- ContinuousTranscriber.transcribe_audio, instrumented with a flag that is
true exactly when the Whisper model was invoked.  `whisper` abstracts the
processor / model.generate / batch_decode chain.  Any exception — including
a librosa decode failure — is caught by the outer try/except and turned into
the empty string. -/
def transcribe_audio (whisper : List ℚ → String) (f : AudioFile) :
    String × Bool :=
  match loadedSamples f with
  | LoadResult.failed => ("", false)
  | LoadResult.ok samples =>
    if samples.length < sample_rate / 2 then ("", false)
    else if peakAmplitude samples < silence_threshold then ("", false)
    else (pyStrip (whisper samples), true)

/-- One transcription segment, as serialized by
TranscriptionSegment.to_dict in the diagnosis router. -/
structure TranscriptionSegment where
  id : String
  speaker : String
  text : String
  timestamp : String
  startTime : ℚ
  endTime : ℚ
deriving DecidableEq, Repr

instance : Inhabited TranscriptionSegment :=
  ⟨⟨"", "", "", "", 0, 0⟩⟩

/-- The process-wide transcription_state dictionary of the diagnosis
router. -/
structure TranscriptionState where
  segments : List TranscriptionSegment
  current_session_id : Option String
  is_active : Bool
  last_update : Option ℚ
deriving DecidableEq, Repr

/-- The module-level initial value of transcription_state. -/
def initialState : TranscriptionState := ⟨[], none, false, none⟩

/-- The JSON bodies the transcribe-chunk endpoint can produce: the
recognized-speech shape, the no-speech shape, and a raised HTTPException. -/
inductive ChunkResponse
  | speech (success : Bool) (transcript : String) (segment_id : String)
      (timestamp : String)
  | noSpeech (success : Bool) (transcript : String) (message : String)
  | httpError (status_code : Nat) (detail : String)
deriving DecidableEq, Repr

/-- True exactly on the HTTPException shape. -/
def isHttpError : ChunkResponse → Bool
  | ChunkResponse.httpError _ _ => true
  | _ => false

/-- The body of transcribe_chunk after transcription: when
transcript.strip() is truthy a TranscriptionSegment is built (fresh uuid4
`segId`, the formatted client timestamp `tsFormatted`, wall clock `now` for
startTime and endTime) and appended to the global state, last_update is
refreshed and is_active is forced to true; otherwise the handler reports
"No speech detected" and leaves the state alone. -/
def appendTranscript (st : TranscriptionState) (transcript : String)
    (segId tsFormatted : String) (now : ℚ) :
    ChunkResponse × TranscriptionState :=
  if pyStrip transcript ≠ "" then
    let seg : TranscriptionSegment :=
      { id := segId, speaker := "unknown", text := transcript,
        timestamp := tsFormatted, startTime := now, endTime := now }
    (ChunkResponse.speech true transcript seg.id seg.timestamp,
      { st with segments := st.segments ++ [seg],
                last_update := some now, is_active := true })
  else
    (ChunkResponse.noSpeech true "" "No speech detected", st)

/-- POST /transcribe-chunk: reject non-audio content types with a 400, then
transcribe the uploaded chunk and run the append logic. -/
def transcribe_chunk (contentType : String) (whisper : List ℚ → String)
    (f : AudioFile) (segId tsFormatted : String) (now : ℚ)
    (st : TranscriptionState) : ChunkResponse × TranscriptionState :=
  if pyStartswith contentType "audio/" then
    appendTranscript st ( transcribe_audio whisper f).1 segId tsFormatted now
  else
    (ChunkResponse.httpError 400 "Invalid audio file", st)

/-- The body of GET /get-latest-transcription. -/
structure LatestResponse where
  segments : List TranscriptionSegment
  is_active : Bool
  last_update : Option ℚ
  session_id : Option String
deriving DecidableEq, Repr

/-- GET /get-latest-transcription. -/
def get_latest_transcription (st : TranscriptionState) : LatestResponse :=
  ⟨st.segments, st.is_active, st.last_update, st.current_session_id⟩

/-- The summary object built by summarize_conversation. -/
structure ConversationSummary where
  conversation_summary : String
  key_points : List String
  total_segments : Nat
  duration : String
  timestamp : String
deriving DecidableEq, Repr

/-- The archived_conversation object built by summarize_conversation. -/
structure ArchivedConversation where
  session_id : String
  segments : List TranscriptionSegment
  summary : ConversationSummary
  archived_at : String
deriving DecidableEq, Repr

/-- The two JSON bodies summarize_conversation can return. -/
inductive SummarizeResponse
  | noConversation (success : Bool) (message : String)
  | archived (success : Bool) (summary : ConversationSummary)
      (conversation : ArchivedConversation)
deriving DecidableEq, Repr

/-- The f-string rendering of the duration: minutes as int(x // 60), then a
colon, then int(x % 60) zero-padded to two digits (Python float floor
division and modulo). -/
def formatDuration (secs : ℚ) : String :=
  let m : ℤ := Int.floor (secs / 60)
  let s : ℤ := Int.floor secs - 60 * m
  toString m ++ ":" ++ (if s < 10 then "0" ++ toString s else toString s)

/-- POST /summarize-conversation.  `generate_summary` and
`extract_key_points` abstract the external summarizer; `nowIso` stands for
datetime.now().isoformat() and `fallbackUuid` for the uuid4 used when
current_session_id is None.  With no segments the handler answers
"No conversation to summarize" and changes nothing; otherwise it joins the
segments into one timestamped text blob, summarizes it, computes the
duration from the first segment's startTime and the last segment's endTime,
archives the segment list, and clears all four fields of the global
state. -/
def summarize_conversation (generate_summary : String → String)
    (extract_key_points : String → List String)
    (nowIso fallbackUuid : String) (st : TranscriptionState) :
    SummarizeResponse × TranscriptionState :=
  match h : st.segments with
  | [] => (SummarizeResponse.noConversation false "No conversation to summarize", st)
  | first :: rest =>
    let segs := first :: rest
    let full_transcription := String.intercalate "\n"
      (segs.map fun seg => "[" ++ seg.timestamp ++ "] " ++ seg.text)
    let ai_summary := generate_summary full_transcription
    let key_points := extract_key_points full_transcription
    let last := segs.getLast (by simp [segs])
    let duration_seconds := last.endTime - first.startTime
    let summary : ConversationSummary :=
      { conversation_summary := ai_summary, key_points := key_points,
        total_segments := segs.length,
        duration := formatDuration duration_seconds, timestamp := nowIso }
    let conversation : ArchivedConversation :=
      { session_id := st.current_session_id.getD fallbackUuid,
        segments := segs, summary := summary, archived_at := nowIso }
    (SummarizeResponse.archived true summary conversation,
      ⟨[], none, false, none⟩)

/-- The body of POST /start-session. -/
structure StartResponse where
  success : Bool
  session_id : String
  message : String
deriving DecidableEq, Repr

/-- POST /start-session: install a fresh uuid4 as the session id, clear the
segment list, set is_active, refresh last_update. -/
def start_transcription_session (newUuid : String) (now : ℚ)
    (st : TranscriptionState) : StartResponse × TranscriptionState :=
  (⟨true, newUuid, "Transcription session started"⟩,
   ⟨[], some newUuid, true, some now⟩)

/-- The body of POST /stop-session. -/
structure StopResponse where
  success : Bool
  session_id : Option String
  total_segments : Nat
  message : String
deriving DecidableEq, Repr

/-- POST /stop-session: clear is_active, report the session id and the
number of accumulated segments. -/
def stop_transcription_session (st : TranscriptionState) :
    StopResponse × TranscriptionState :=
  (⟨true, st.current_session_id, st.segments.length,
    "Transcription session stopped"⟩,
   { st with is_active := false })

/-- The body of GET /session-status. -/
structure StatusResponse where
  session_id : Option String
  is_active : Bool
  segment_count : Nat
  last_update : Option ℚ
deriving DecidableEq, Repr

/-- GET /session-status. -/
def get_session_status (st : TranscriptionState) : StatusResponse :=
  ⟨st.current_session_id, st.is_active, st.segments.length, st.last_update⟩

/-- Outcome of one send/recv round on the provider websocket, as seen by
WhisperProviderClient.send_audio: a response string arrived in time, the
10-second wait timed out, or the connection was found closed (with the
subsequent reconnect attempt succeeding or raising). -/
inductive AttemptOutcome
  | ok (response : String)
  | timeout
  | connectionClosed (reconnectSucceeds : Bool)
deriving DecidableEq, Repr

/-- The object json-serialized on timeout: an empty transcript plus a
status field. -/
structure TimeoutSentinel where
  transcript : String
  status : String
deriving DecidableEq, Repr

/-- What a send_audio call produces for its caller. -/
inductive SendResult
  | response (text : String)
  | sentinel (payload : TimeoutSentinel)
  | raisedConnectError
  | stillRetrying
deriving DecidableEq, Repr

/-- The recv timeout of send_audio, in seconds. -/
def response_timeout_seconds : ℚ := 10

/-- WhisperProviderClient.send_audio over a trace of per-attempt outcomes.
A successful attempt returns the backend's text verbatim; a timeout returns
the JSON sentinel; a ConnectionClosed is caught, the client reconnects and
the whole call recurses on the rest of the trace, and if the reconnect
itself raises, that exception propagates to the caller.  An exhausted trace
marks a call still inside the retry recursion. -/
def send_audio : List AttemptOutcome → SendResult
  | [] => SendResult.stillRetrying
  | AttemptOutcome.ok r :: _ => SendResult.response r
  | AttemptOutcome.timeout :: _ => SendResult.sentinel ⟨"", "timeout"⟩
  | AttemptOutcome.connectionClosed true :: rest => send_audio rest
  | AttemptOutcome.connectionClosed false :: _ => SendResult.raisedConnectError

/-- How many reconnect attempts send_audio makes on a trace. -/
def reconnectAttempts : List AttemptOutcome → Nat
  | AttemptOutcome.connectionClosed true :: rest => reconnectAttempts rest + 1
  | AttemptOutcome.connectionClosed false :: _ => 1
  | _ => 0

/-- collections.deque append with a maxlen bound: once the deque is full,
appending discards the oldest element from the opposite end. -/
def dequeAppend (maxlen : Nat) (buf : List ℤ) (x : ℤ) : List ℤ :=
  if buf.length < maxlen then buf ++ [x] else buf.tail ++ [x]

/-- maxlen of the sliding-window deque: 6 seconds at 16 kHz. -/
def audio_buffer_maxlen : Nat := 6 * 16 * 1000

/-- maxlen of the overlap deque: 1 second at 16 kHz. -/
def overlap_buffer_maxlen : Nat := 16 * 1000

/-- The two bounded deques created in WhisperProviderClient.__init__. -/
structure WhisperProviderClient where
  audio_buffer : List ℤ
  overlap_buffer : List ℤ
deriving DecidableEq, Repr

/-- A freshly constructed client: both deques empty. -/
def WhisperProviderClient.empty : WhisperProviderClient := ⟨[], []⟩

/-- One push of a sample into one of the client's two deques. -/
inductive PushOp
  | pushSamples (x : ℤ)
  | pushOverlap (x : ℤ)
deriving DecidableEq, Repr

/-- Apply one push, respecting each deque's maxlen. -/
def applyPush (c : WhisperProviderClient) : PushOp → WhisperProviderClient
  | PushOp.pushSamples x =>
    { c with audio_buffer := dequeAppend audio_buffer_maxlen c.audio_buffer x }
  | PushOp.pushOverlap x =>
    { c with overlap_buffer := dequeAppend overlap_buffer_maxlen c.overlap_buffer x }

/-- Run a sequence of pushes against a freshly constructed client. -/
def runPushes (ops : List PushOp) : WhisperProviderClient :=
  ops.foldl applyPush WhisperProviderClient.empty

/-- Fixture: half a second of full-scale samples (8000 samples at 16 kHz,
amplitude 1), long and loud enough to reach the Whisper invocation. -/
def speechSamples : List ℚ := List.replicate 8000 1

/-- Fixture: an uncompressed file that decodes to `speechSamples`. -/
def speechFile : AudioFile := ⟨false, none, LoadResult.ok speechSamples⟩

/-- Fixture: a .webm file whose pydub decode raises and whose original
bytes librosa cannot decode either. -/
def badFile : AudioFile := ⟨true, none, LoadResult.failed⟩

/-- Fixture: a session that is not active (stopped), with no segments. -/
def inactiveState : TranscriptionState := ⟨[], some "sess-1", false, none⟩

/-- Fixture: an active session holding two accumulated segments. -/
def twoSegmentState : TranscriptionState :=
  ⟨[⟨"a", "unknown", "hi", "10:00:00", 0, 0⟩,
    ⟨"b", "unknown", "there", "10:00:05", 0, 7⟩], some "sess-2", true, some 3⟩

/-- Peak amplitude of a nonempty constant-one sample array is 1. -/
theorem peakAmplitude_replicate_one (n : Nat) :
    peakAmplitude (List.replicate (n + 1) (1 : ℚ)) = 1 := by
  induction n with
  | zero => norm_num [peakAmplitude]
  | succ k ih =>
    rw [List.replicate_succ]
    show max |(1 : ℚ)| (peakAmplitude (List.replicate (k + 1) 1)) = 1
    rw [ih]
    norm_num

/-- Evaluating transcribe_audio on the speech fixture: both guards pass and
the Whisper abstraction is invoked. -/
theorem transcribe_audio_speechFile (whisper : List ℚ → String) :
    transcribe_audio whisper speechFile = (pyStrip (whisper speechSamples), true) := by
  have hlen : ¬ (speechSamples.length < sample_rate / 2) := by
    show ¬ ((List.replicate 8000 (1 : ℚ)).length < 16000 / 2)
    rw [List.length_replicate]
    norm_num
  have hpeak : ¬ (peakAmplitude speechSamples < silence_threshold) := by
    have h1 : peakAmplitude speechSamples = 1 := by
      have h2 := peakAmplitude_replicate_one 7999
      have h3 : (7999 + 1 : Nat) = 8000 := by norm_num
      rw [h3] at h2
      show peakAmplitude (List.replicate 8000 (1 : ℚ)) = 1
      exact h2
    rw [h1, silence_threshold]
    norm_num
  show (if speechSamples.length < sample_rate / 2 then (("", false) : String × Bool)
        else if peakAmplitude speechSamples < silence_threshold then ("", false)
        else (pyStrip (whisper speechSamples), true)) = _
  rw [if_neg hlen, if_neg hpeak]

/-- Evaluating the chunk endpoint on the speech fixture against the
inactive session fixture. -/
theorem transcribe_chunk_speech_eval :
    transcribe_chunk "audio/wav" (fun _ => "hello") speechFile "seg-1" "10:00:00" 5
        inactiveState
      = (ChunkResponse.speech true "hello" "seg-1" "10:00:00",
         ⟨[⟨"seg-1", "unknown", "hello", "10:00:00", 5, 5⟩], some "sess-1", true,
          some 5⟩) := by
  have h1 : ( transcribe_audio (fun _ => "hello") speechFile).1 = "hello" := by
    rw [transcribe_audio_speechFile]
    decide
  have hct : pyStartswith "audio/wav" "audio/" = true := by decide
  have hs : pyStrip "hello" ≠ "" := by decide
  simp only [transcribe_chunk, hct, if_true, appendTranscript, h1, hs, ite_true,
    if_pos, inactiveState]
  decide

/-- send_audio steps over a caught ConnectionClosed whose reconnect
succeeds. -/
theorem send_audio_closed_cons (rest : List AttemptOutcome) :
    send_audio (AttemptOutcome.connectionClosed true :: rest) = send_audio rest := rfl

/-- send_audio steps over any number of caught ConnectionClosed events. -/
theorem send_audio_replicate_closed (n : Nat) (rest : List AttemptOutcome) :
    send_audio (List.replicate n (AttemptOutcome.connectionClosed true) ++ rest)
      = send_audio rest := by
  induction n with
  | zero => rfl
  | succ k ih =>
    rw [List.replicate_succ, List.cons_append, send_audio_closed_cons, ih]

/-- reconnectAttempts steps over a caught ConnectionClosed. -/
theorem reconnectAttempts_closed_cons (rest : List AttemptOutcome) :
    reconnectAttempts (AttemptOutcome.connectionClosed true :: rest)
      = reconnectAttempts rest + 1 := rfl

/-- reconnectAttempts counts every caught ConnectionClosed in the trace. -/
theorem reconnectAttempts_replicate_closed (n : Nat) (rest : List AttemptOutcome) :
    reconnectAttempts (List.replicate n (AttemptOutcome.connectionClosed true) ++ rest)
      = reconnectAttempts rest + n := by
  induction n with
  | zero => rfl
  | succ k ih =>
    rw [List.replicate_succ, List.cons_append, reconnectAttempts_closed_cons, ih]
    omega

/-- A deque append never pushes the length past a positive maxlen. -/
theorem dequeAppend_length_le (m : Nat) (hm : 1 ≤ m) (buf : List ℤ) (x : ℤ)
    (h : buf.length ≤ m) : (dequeAppend m buf x).length ≤ m := by
  unfold dequeAppend
  by_cases hlt : buf.length < m
  · rw [if_pos hlt]
    simpa using hlt
  · rw [if_neg hlt]
    have hlen : buf.length = m := le_antisymm h (Nat.le_of_not_lt hlt)
    simp [List.length_tail, hlen]
    omega

/-- Both deque bounds are preserved by any run of pushes. -/
theorem runPushes_aux (ops : List PushOp) (c : WhisperProviderClient)
    (h1 : c.audio_buffer.length ≤ audio_buffer_maxlen)
    (h2 : c.overlap_buffer.length ≤ overlap_buffer_maxlen) :
    (ops.foldl applyPush c).audio_buffer.length ≤ audio_buffer_maxlen ∧
    (ops.foldl applyPush c).overlap_buffer.length ≤ overlap_buffer_maxlen := by
  induction ops generalizing c with
  | nil => exact ⟨h1, h2⟩
  | cons op rest ih =>
    cases op with
    | pushSamples x =>
      exact ih _
        (dequeAppend_length_le _ (by norm_num [audio_buffer_maxlen]) _ _ h1) h2
    | pushOverlap x =>
      exact ih _ h1
        (dequeAppend_length_le _ (by norm_num [overlap_buffer_maxlen]) _ _ h2)

/-- C1: for every audio input whose decoded sample array is shorter than
0.5 seconds (fewer than 0.5 * 16000 samples) or whose peak absolute
amplitude is below the silence threshold 0.01, transcribe_audio returns the
empty string without invoking the recognition model. -/
theorem C1_short_or_silent_skips_model (whisper : List ℚ → String)
    (f : AudioFile) (s : List ℚ) (hload : loadedSamples f = LoadResult.ok s)
    (h : s.length < sample_rate / 2 ∨ peakAmplitude s < silence_threshold) :
    transcribe_audio whisper f = ("", false) := by
  have hsplit : transcribe_audio whisper f
      = (if s.length < sample_rate / 2 then ("", false)
         else if peakAmplitude s < silence_threshold then ("", false)
         else (pyStrip (whisper s), true)) := by
    unfold transcribe_audio
    rw [hload]
  rw [hsplit]
  rcases h with h | h
  · rw [if_pos h]
  · by_cases h2 : s.length < sample_rate / 2
    · rw [if_pos h2]
    · rw [if_neg h2, if_pos h]

/-- Witness for C1: a one-sample clip is below the minimum duration and
produces the empty transcript without a model invocation. -/
theorem C1_witness :
    transcribe_audio (fun _ => "speech") ⟨false, none, LoadResult.ok [1]⟩
      = ("", false) :=
  C1_short_or_silent_skips_model _ _ [1] rfl (Or.inl (by decide))

/-- C2 counterexample: after a first connection-closed failure and a
reconnect, a second connection-closed failure is not surfaced as a hard
error — send_audio reconnects a second time and returns the third
attempt's transcript. -/
theorem C2_counterexample :
    send_audio [AttemptOutcome.connectionClosed true,
        AttemptOutcome.connectionClosed true, AttemptOutcome.ok "hello"]
      = SendResult.response "hello" ∧
    reconnectAttempts [AttemptOutcome.connectionClosed true,
        AttemptOutcome.connectionClosed true, AttemptOutcome.ok "hello"] = 2 ∧
    SendResult.response "hello" ≠ SendResult.raisedConnectError :=
  ⟨rfl, rfl, by decide⟩

/-- C2 (amended): on every connection-closed failure send_audio reconnects
and retries recursively, without any bound on the number of retries; a hard
error reaches the caller only when a reconnect attempt itself fails, never
because of a second (or later) closure alone. -/
theorem C2_amended_unbounded_retry :
    (∀ (n : Nat) (rest : List AttemptOutcome),
        send_audio (List.replicate n (AttemptOutcome.connectionClosed true) ++ rest)
          = send_audio rest) ∧
    (∀ n : Nat,
        send_audio (List.replicate n (AttemptOutcome.connectionClosed true)
            ++ [AttemptOutcome.connectionClosed false])
          = SendResult.raisedConnectError) ∧
    (∀ n : Nat,
        reconnectAttempts (List.replicate (n + 1) (AttemptOutcome.connectionClosed true)
            ++ [AttemptOutcome.ok "t"]) = n + 1) := by
  refine ⟨send_audio_replicate_closed, ?_, ?_⟩
  · intro n
    rw [send_audio_replicate_closed]
    rfl
  · intro n
    rw [reconnectAttempts_replicate_closed]
    have h0 : reconnectAttempts [AttemptOutcome.ok "t"] = 0 := rfl
    rw [h0]
    omega

/-- C3 counterexample: a chunk with recognized speech submitted while the
session is not active is not rejected — the segment is appended and the
session is even flipped back to active. -/
theorem C3_counterexample :
    inactiveState.is_active = false ∧
    (transcribe_chunk "audio/wav" (fun _ => "hello") speechFile "seg-1" "10:00:00" 5
        inactiveState).2.is_active = true ∧
    (transcribe_chunk "audio/wav" (fun _ => "hello") speechFile "seg-1" "10:00:00" 5
        inactiveState).2.segments.length
      = inactiveState.segments.length + 1 ∧
    (transcribe_chunk "audio/wav" (fun _ => "hello") speechFile "seg-1" "10:00:00" 5
        inactiveState).2 ≠ inactiveState := by
  rw [transcribe_chunk_speech_eval]
  refine ⟨rfl, rfl, rfl, by decide⟩

/-- C3 (amended): transcribe-chunk with recognized speech appends the
segment regardless of the session's status — for any prior state, active or
not, the segment is appended at the tail, last_update is refreshed and
is_active is forced to true. -/
theorem C3_amended_append_regardless (contentType : String)
    (whisper : List ℚ → String) (f : AudioFile) (segId tsFormatted : String)
    (now : ℚ) (st : TranscriptionState)
    (hct : pyStartswith contentType "audio/" = true)
    (hspeech : pyStrip ( transcribe_audio whisper f).1 ≠ "") :
    transcribe_chunk contentType whisper f segId tsFormatted now st
      = (ChunkResponse.speech true ( transcribe_audio whisper f).1 segId tsFormatted,
         { st with
             segments := st.segments ++
               [⟨segId, "unknown", ( transcribe_audio whisper f).1, tsFormatted,
                 now, now⟩],
             last_update := some now, is_active := true }) := by
  simp only [transcribe_chunk, hct, if_true, appendTranscript, hspeech, ite_true,
    ne_eq, not_false_eq_true]

/-- Witness for C3 (amended): applying the theorem to the stopped-session
fixture and the speech fixture. -/
theorem C3_witness :
    transcribe_chunk "audio/wav" (fun _ => "hello") speechFile "seg-1" "10:00:00" 5
        inactiveState
      = (ChunkResponse.speech true
           ( transcribe_audio (fun _ => "hello") speechFile).1 "seg-1" "10:00:00",
         { inactiveState with
             segments := inactiveState.segments ++
               [⟨"seg-1", "unknown",
                 ( transcribe_audio (fun _ => "hello") speechFile).1, "10:00:00",
                 5, 5⟩],
             last_update := some 5, is_active := true }) :=
  C3_amended_append_regardless _ _ _ _ _ _ _ (by decide)
    (by rw [transcribe_audio_speechFile]; decide)

/-- C4: summarize-and-archive on a state holding at least one segment
returns total_segments equal to the number of accumulated segments and
clears the state, so that session-status afterwards reports is_active false
and segment_count 0. -/
theorem C4_summarize_reports_and_clears (generate_summary : String → String)
    (extract_key_points : String → List String) (nowIso fallbackUuid : String)
    (st : TranscriptionState) (h : 1 ≤ st.segments.length) :
    (∃ summary conversation,
        summarize_conversation generate_summary extract_key_points nowIso
            fallbackUuid st
          = (SummarizeResponse.archived true summary conversation,
             ⟨[], none, false, none⟩) ∧
        summary.total_segments = st.segments.length) ∧
    get_session_status
        (summarize_conversation generate_summary extract_key_points nowIso
          fallbackUuid st).2
      = ⟨none, false, 0, none⟩ := by
  obtain ⟨segs, sid, act, lu⟩ := st
  cases segs with
  | nil => simp at h
  | cons first rest => exact ⟨⟨_, _, rfl, rfl⟩, rfl⟩

/-- Witness for C4: archiving the two-segment fixture clears the session. -/
theorem C4_witness :
    get_session_status
        (summarize_conversation (fun _ => "summary") (fun _ => []) "2026-10-12"
          "u-1" twoSegmentState).2
      = ⟨none, false, 0, none⟩ :=
  (C4_summarize_reports_and_clears _ _ _ _ twoSegmentState (by decide)).2

/-- C5: whenever the response does not arrive within the fixed timeout on
some attempt (after any number of reconnect-and-retry rounds), send_audio
returns the JSON sentinel with status timeout and an empty transcript, and
no exception reaches the caller. -/
theorem C5_timeout_returns_sentinel (n : Nat) (rest : List AttemptOutcome) :
    send_audio (List.replicate n (AttemptOutcome.connectionClosed true)
        ++ AttemptOutcome.timeout :: rest)
      = SendResult.sentinel ⟨"", "timeout"⟩ ∧
    SendResult.sentinel ⟨"", "timeout"⟩ ≠ SendResult.raisedConnectError ∧
    SendResult.sentinel ⟨"", "timeout"⟩ ≠ SendResult.stillRetrying := by
  refine ⟨?_, by decide, by decide⟩
  rw [send_audio_replicate_closed]
  rfl

/-- C6: when the transcript of a chunk strips to the empty string, the
response is exactly the no-speech body and the session state is left
completely unchanged. -/
theorem C6_no_speech_leaves_state (contentType : String)
    (whisper : List ℚ → String) (f : AudioFile) (segId tsFormatted : String)
    (now : ℚ) (st : TranscriptionState)
    (hct : pyStartswith contentType "audio/" = true)
    (hempty : pyStrip ( transcribe_audio whisper f).1 = "") :
    transcribe_chunk contentType whisper f segId tsFormatted now st
      = (ChunkResponse.noSpeech true "" "No speech detected", st) := by
  simp only [transcribe_chunk, hct, if_true, appendTranscript, hempty, ne_eq,
    not_true_eq_false, ite_false]

/-- Witness for C6: a silent (empty-sample) chunk on the idle initial state
produces the no-speech response and no appended segment. -/
theorem C6_witness :
    transcribe_chunk "audio/webm" (fun _ => "x") ⟨false, none, LoadResult.ok []⟩
        "seg-0" "00:00:02" 2 initialState
      = (ChunkResponse.noSpeech true "" "No speech detected", initialState) :=
  C6_no_speech_leaves_state _ _ _ _ _ _ _ (by decide) (by decide)

/-- C7 counterexample: a .webm chunk whose pydub decode fails and whose
original bytes also fail to decode is not surfaced as a client error —
transcribe_audio absorbs the failure into the empty transcript and the
chunk endpoint answers success with "No speech detected". -/
theorem C7_counterexample :
    convert_webm_to_wav badFile = ConvertedFile.originalFile ∧
    loadedSamples badFile = LoadResult.failed ∧
    transcribe_audio (fun _ => "speech") badFile = ("", false) ∧
    transcribe_chunk "audio/webm" (fun _ => "speech") badFile "seg-9" "09:00:00" 1
        initialState
      = (ChunkResponse.noSpeech true "" "No speech detected", initialState) ∧
    isHttpError
        (transcribe_chunk "audio/webm" (fun _ => "speech") badFile "seg-9"
          "09:00:00" 1 initialState).1
      = false := by
  refine ⟨rfl, rfl, rfl, by decide, by decide⟩

/-- C7 (amended): when decoding the declared format fails, normalization
falls back to attempting the original bytes; when that also fails, the
failure is absorbed — transcribe_audio returns the empty transcript and no
error of any kind is signaled to the caller. -/
theorem C7_amended_fallback_absorbs (whisper : List ℚ → String) (f : AudioFile)
    (hcompressed : f.isWebmOrOpus = true) (hdecode : f.pydubDecode = none) :
    convert_webm_to_wav f = ConvertedFile.originalFile ∧
    loadedSamples f = f.librosaLoadOriginal ∧
    (f.librosaLoadOriginal = LoadResult.failed →
      transcribe_audio whisper f = ("", false)) := by
  have h1 : convert_webm_to_wav f = ConvertedFile.originalFile := by
    unfold convert_webm_to_wav
    rw [hdecode]
  have h2 : loadedSamples f = f.librosaLoadOriginal := by
    unfold loadedSamples
    rw [hcompressed, h1]
    rfl
  refine ⟨h1, h2, ?_⟩
  intro hfail
  unfold transcribe_audio
  rw [h2, hfail]

/-- Witness for C7 (amended): the doubly failing fixture yields the empty
transcript. -/
theorem C7_witness :
    transcribe_audio (fun _ => "speech") badFile = ("", false) :=
  (C7_amended_fallback_absorbs _ badFile rfl rfl).2.2 rfl

/-- C8: stop-session is idempotent — a second stop leaves the state exactly
as after the first and returns the identical response — and it discards no
segments: they survive the stop and remain readable through
get-latest-transcription. -/
theorem C8_stop_idempotent_preserves_segments (st : TranscriptionState) :
    (stop_transcription_session (stop_transcription_session st).2).2
      = (stop_transcription_session st).2 ∧
    (stop_transcription_session (stop_transcription_session st).2).1
      = (stop_transcription_session st).1 ∧
    (stop_transcription_session st).2.segments = st.segments ∧
    (get_latest_transcription (stop_transcription_session st).2).segments
      = st.segments :=
  ⟨rfl, rfl, rfl, rfl⟩

/-- C9: for any sequence of pushes the sliding-window deque never exceeds
6 * 16 * 1000 = 96000 samples and the overlap deque never exceeds
16 * 1000 = 16000 samples (so together never more than target plus
overlap), and appending to a full deque discards the oldest sample instead
of growing. -/
theorem C9_buffers_never_exceed_capacity :
    (∀ ops : List PushOp,
        (runPushes ops).audio_buffer.length ≤ audio_buffer_maxlen ∧
        (runPushes ops).overlap_buffer.length ≤ overlap_buffer_maxlen ∧
        (runPushes ops).audio_buffer.length + (runPushes ops).overlap_buffer.length
          ≤ audio_buffer_maxlen + overlap_buffer_maxlen) ∧
    (∀ (m : Nat) (buf : List ℤ) (x : ℤ), buf.length = m →
        dequeAppend m buf x = buf.tail ++ [x]) := by
  constructor
  · intro ops
    obtain ⟨ha, hb⟩ := runPushes_aux ops WhisperProviderClient.empty
      (by simp [WhisperProviderClient.empty]) (by simp [WhisperProviderClient.empty])
    exact ⟨ha, hb, Nat.add_le_add ha hb⟩
  · intro m buf x h
    unfold dequeAppend
    rw [if_neg (by omega)]

/-- Witness for C9: one push stays within the bound, and appending to a
full one-slot deque drops the old element. -/
theorem C9_witness :
    (runPushes [PushOp.pushSamples 3]).audio_buffer.length ≤ audio_buffer_maxlen ∧
    dequeAppend 1 [(5 : ℤ)] 7 = [7] :=
  ⟨(C9_buffers_never_exceed_capacity.1 [PushOp.pushSamples 3]).1,
   (C9_buffers_never_exceed_capacity.2 1 [(5 : ℤ)] 7 rfl).trans rfl⟩

/-- C10: start-session always succeeds and unconditionally resets the
process-wide state — fresh session id, is_active true, empty segment list —
and the resulting state is the same whatever state (including one holding
unarchived segments) was there before. -/
theorem C10_start_unconditionally_resets (newUuid : String) (now : ℚ)
    (st : TranscriptionState) :
    start_transcription_session newUuid now st
      = (⟨true, newUuid, "Transcription session started"⟩,
         ⟨[], some newUuid, true, some now⟩) ∧
    (start_transcription_session newUuid now st).2.segments = [] ∧
    (start_transcription_session newUuid now st).1.success = true ∧
    ∀ prior : TranscriptionState,
      (start_transcription_session newUuid now prior).2
        = (start_transcription_session newUuid now st).2 :=
  ⟨rfl, rfl, rfl, fun _ => rfl⟩
